import Mathlib

/-!
Verification of the fastapi-graphql-basics CRUD backend.

The repository exposes two entities, College and Student, through GraphQL
resolvers. The primary module tree is `src/api/` (models.py, schema.py);
`src/schema.py` is a second, legacy copy of the schema module. Resolvers
acquire a session, read and write rows of the two tables, commit, and
return view objects (CollegeType / StudentType).

This file shallowly embeds the data model and the resolver logic: a store
state is the contents of the two tables, a resolver is a function from the
store (plus its GraphQL arguments) to its result and the successor store.
A Python `raise ValueError(...)` becomes an `Except.error` carrying the
message; the store component of the result is the table state at the
moment the resolver exits (normally or by raising).
-/

namespace FastApiGraphQL

/-- Row of table `colleges` (src/api/models.py): integer primary key `id`,
plus `name` and `location` strings. -/
structure College where
  id : Int
  name : String
  location : String
  deriving Repr, DecidableEq

/-- Row of table `students` (src/api/models.py): integer primary key `id`,
`name`, integer `age`, and foreign key `college_id` referencing
`colleges.id`. -/
structure Student where
  id : Int
  name : String
  age : Int
  college_id : Int
  deriving Repr, DecidableEq

/-- Modelled from the spec: the relational store behind the persistence
gateway (the repository's `database.py` modules are not under src/). The
state is the contents of the two tables, each a list of rows in insertion
order. A resolver's session reads and writes this state; `commit` makes
the writes the successor state. -/
structure Store where
  colleges : List College
  students : List Student
  deriving Repr, DecidableEq

/-- Schema well-formedness: `id` is the primary key of both tables, so the
ids within each table are pairwise distinct. -/
def Store.WF (s : Store) : Prop :=
  (s.colleges.map College.id).Nodup ∧ (s.students.map Student.id).Nodup

instance (s : Store) : Decidable s.WF :=
  inferInstanceAs (Decidable (_ ∧ _))

/-- Modelled from the spec: system-assigned fresh integer id for a newly
inserted row (`id`: "integer, unique, system-assigned"), realised as one
more than the largest id in use, hence distinct from every id present. -/
def freshId (ids : List Int) : Int :=
  ids.foldl max 0 + 1

/-- GraphQL view type `CollegeType` (src/api/schema.py): id, name,
location. -/
structure CollegeType where
  id : Int
  name : String
  location : String
  deriving Repr, DecidableEq

/-- GraphQL view type `StudentType` (src/api/schema.py): id, name, age,
college_id. -/
structure StudentType where
  id : Int
  name : String
  age : Int
  college_id : Int
  deriving Repr, DecidableEq

/-- In-place field update of the first list element satisfying `p`, the way
a SQLAlchemy session mutates the single object returned by
`.filter(...).first()` before committing. -/
def modifyFirst {α : Type} (p : α → Bool) (g : α → α) : List α → List α
  | [] => []
  | x :: xs => if p x then g x :: xs else x :: modifyFirst p g xs

namespace Api

/-- Query.colleges (src/api/schema.py:27-46): list every College row,
mapped 1:1 into CollegeType views. -/
def colleges (s : Store) : List CollegeType :=
  s.colleges.map (fun c => ⟨c.id, c.name, c.location⟩)

/-- Query.students (src/api/schema.py:48-73): list every Student row,
mapped 1:1 into StudentType views. -/
def students (s : Store) : List StudentType :=
  s.students.map (fun st => ⟨st.id, st.name, st.age, st.college_id⟩)

/-- Mutation.create_college (src/api/schema.py:80-99): insert a new row
with the given name and location, commit, refresh to obtain the assigned
id, and return the view. -/
def create_college (s : Store) (name location : String) :
    CollegeType × Store :=
  let cid := freshId (s.colleges.map College.id)
  let college : College := ⟨cid, name, location⟩
  (⟨college.id, college.name, college.location⟩,
   { s with colleges := s.colleges ++ [college] })

/-- Mutation.update_college (src/api/schema.py:101-122): find the first
College with the given id (`.filter(College.id == id).first()`); if none,
`raise ValueError("College not found")`; otherwise overwrite its name and
location in place, commit, and return the view of the mutated row. -/
def update_college (s : Store) (id : Int) (name location : String) :
    Except String CollegeType × Store :=
  match s.colleges.find? (fun c => c.id == id) with
  | none => (.error "College not found", s)
  | some college =>
      (.ok ⟨college.id, name, location⟩,
       { s with colleges :=
           (modifyFirst (fun c => c.id == id)
             (fun c => { c with name := name, location := location })
             s.colleges) })

/-- Mutation.delete_college (src/api/schema.py:124-140): find the first
College with the given id; if present, delete that row, commit, and return
true; otherwise return false without touching the store. Never raises. -/
def delete_college (s : Store) (id : Int) : Bool × Store :=
  match s.colleges.find? (fun c => c.id == id) with
  | some _ =>
      (true, { s with colleges := s.colleges.eraseP (fun c => c.id == id) })
  | none => (false, s)

/-- Mutation.create_student (src/api/schema.py:143-171): look up the
referenced College by `college_id`; if absent,
`raise ValueError("College not found")`; otherwise insert the new Student
row, commit, refresh, and return its view. -/
def create_student (s : Store) (name : String) (age college_id : Int) :
    Except String StudentType × Store :=
  match s.colleges.find? (fun c => c.id == college_id) with
  | none => (.error "College not found", s)
  | some _ =>
      let sid := freshId (s.students.map Student.id)
      let student : Student := ⟨sid, name, age, college_id⟩
      (.ok ⟨student.id, student.name, student.age, student.college_id⟩,
       { s with students := s.students ++ [student] })

/-- Mutation.update_student (src/api/schema.py:173-199): find the first
Student with the given id; if none,
`raise ValueError("Student not found")`; otherwise overwrite its name and
age in place (college_id untouched), commit, and return its view. -/
def update_student (s : Store) (id : Int) (name : String) (age : Int) :
    Except String StudentType × Store :=
  match s.students.find? (fun st => st.id == id) with
  | none => (.error "Student not found", s)
  | some student =>
      (.ok ⟨student.id, name, age, student.college_id⟩,
       { s with students :=
           (modifyFirst (fun st => st.id == id)
             (fun st => { st with name := name, age := age })
             s.students) })

/-- Mutation.delete_student (src/api/schema.py:201-217): find the first
Student with the given id; if present, delete that row, commit, and return
true; otherwise return false. Never raises. -/
def delete_student (s : Store) (id : Int) : Bool × Store :=
  match s.students.find? (fun st => st.id == id) with
  | some _ =>
      (true, { s with students := s.students.eraseP (fun st => st.id == id) })
  | none => (false, s)

end Api

namespace Legacy

/-- Query.colleges of the legacy tree (src/schema.py:29-36): same row scan
and view mapping as the primary tree. -/
def colleges (s : Store) : List CollegeType :=
  s.colleges.map (fun c => ⟨c.id, c.name, c.location⟩)

/-- Query.students of the legacy tree (src/schema.py:38-48): same body as
the primary tree, but the method carries no `@strawberry.field` decorator,
so it is not exposed as a GraphQL field. -/
def students (s : Store) : List StudentType :=
  s.students.map (fun st => ⟨st.id, st.name, st.age, st.college_id⟩)

/-- Mutation.create_college of the legacy tree (src/schema.py:56-63):
inserts and commits like the primary tree, but then returns a freshly
constructed `College` model object rather than a `CollegeType` view (its
return annotation even says StudentType). -/
def create_college (s : Store) (name location : String) :
    College × Store :=
  let cid := freshId (s.colleges.map College.id)
  let college : College := ⟨cid, name, location⟩
  (⟨college.id, college.name, college.location⟩,
   { s with colleges := s.colleges ++ [college] })

/-- Mutation.create_student of the legacy tree (src/schema.py:65-77):
validates the college, inserts and commits the Student row like the
primary tree, but then constructs `StudentType(id=..., name=...,
college_id=...)` WITHOUT the required `age` field, which raises a
TypeError after the row was already committed. The error message on a
missing college is also lowercase ("college not found"). -/
def create_student (s : Store) (name : String) (age college_id : Int) :
    Except String StudentType × Store :=
  match s.colleges.find? (fun c => c.id == college_id) with
  | none => (.error "college not found", s)
  | some _ =>
      let sid := freshId (s.students.map Student.id)
      let student : Student := ⟨sid, name, age, college_id⟩
      (.error "TypeError: StudentType missing required argument age",
       { s with students := s.students ++ [student] })

end Legacy

/-! Helper lemmas about fresh ids, `List.eraseP` and `modifyFirst` on lists
whose projected keys are pairwise distinct. -/

theorem foldl_max_init_le (l : List Int) : ∀ a : Int, a ≤ l.foldl max a := by
  induction l with
  | nil => intro a; exact le_refl a
  | cons x xs ih =>
      intro a
      calc a ≤ max a x := le_max_left a x
        _ ≤ xs.foldl max (max a x) := ih (max a x)

theorem le_foldl_max_of_mem (l : List Int) :
    ∀ (a x : Int), x ∈ l → x ≤ l.foldl max a := by
  induction l with
  | nil => intro a x hx; cases hx
  | cons y ys ih =>
      intro a x hx
      cases hx with
      | head =>
          exact le_trans (le_max_right _ _) (foldl_max_init_le ys _)
      | tail _ h => exact ih (max a y) x h

theorem lt_freshId (ids : List Int) (x : Int) (hx : x ∈ ids) :
    x < freshId ids :=
  lt_of_le_of_lt (le_foldl_max_of_mem ids 0 x hx) (lt_add_one _)

theorem eraseP_eq_filter_of_nodup {α : Type} (f : α → Int) (k : Int) :
    ∀ l : List α, (l.map f).Nodup →
      l.eraseP (fun x => f x == k) = l.filter (fun x => f x != k) := by
  intro l
  induction l with
  | nil => intro _; rfl
  | cons x xs ih =>
      intro hnd
      rw [List.map_cons, List.nodup_cons] at hnd
      by_cases hx : f x = k
      · have hpx : (f x == k) = true := beq_iff_eq.mpr hx
        have hnx : (f x != k) = false := by simp [bne, hpx]
        have hall : ∀ y ∈ xs, (f y != k) = true := by
          intro y hy
          refine bne_iff_ne.mpr ?_
          intro hyk
          exact hnd.1 (hx ▸ hyk ▸ List.mem_map_of_mem f hy)
        rw [List.eraseP_cons, hpx, List.filter_cons, hnx]
        simpa using (List.filter_eq_self.mpr hall).symm
      · have hpx : (f x == k) = false := by
          simp [hx]
        have hnx : (f x != k) = true := bne_iff_ne.mpr hx
        rw [List.eraseP_cons, hpx, List.filter_cons, hnx]
        simpa using ih hnd.2

theorem modifyFirst_eq_map_of_nodup {α : Type} (f : α → Int) (k : Int)
    (g : α → α) :
    ∀ l : List α, (l.map f).Nodup →
      modifyFirst (fun x => f x == k) g l =
        l.map (fun x => if f x = k then g x else x) := by
  intro l
  induction l with
  | nil => intro _; rfl
  | cons x xs ih =>
      intro hnd
      rw [List.map_cons, List.nodup_cons] at hnd
      by_cases hx : f x = k
      · have hall : xs.map (fun y => if f y = k then g y else y) = xs := by
          refine List.map_congr_left ?_ ▸ (List.map_id xs)
          intro y hy
          have : f y ≠ k := by
            intro hyk
            exact hnd.1 (hx ▸ hyk ▸ List.mem_map_of_mem f hy)
          simp [this]
        simp [modifyFirst, hx, hall]
      · have hpx : (f x == k) = false := by simp [hx]
        simp only [modifyFirst, hpx, List.map_cons, if_neg hx, ih hnd.2]
        simp

theorem find?_filter_ne_eq_none {α : Type} (f : α → Int) (k : Int)
    (l : List α) :
    (l.filter (fun x => f x != k)).find? (fun x => f x == k) = none := by
  rw [List.find?_eq_none]
  intro x hx
  have hne : (f x != k) = true := (List.mem_filter.mp hx).2
  simp only [beq_iff_eq]
  exact bne_iff_ne.mp hne

/-! Concrete stores used to instantiate the theorems below. -/

/-- Store holding one college (id 1) and no students. -/
def s0 : Store := ⟨[⟨1, "Stanford", "California"⟩], []⟩

/-- Store holding one college (id 1) and one student (id 1) enrolled in
it. -/
def s1 : Store := ⟨[⟨1, "Stanford", "California"⟩], [⟨1, "Alice", 21, 1⟩]⟩

/-- C2: updateCollege on an id matching no College row fails with the
NotFound error ("College not found") and returns the store unchanged: no
row is created, modified, or deleted on the error path. -/
theorem update_college_not_found (s : Store) (id : Int)
    (name location : String) (h : ∀ c ∈ s.colleges, c.id ≠ id) :
    Api.update_college s id name location =
      (.error "College not found", s) := by
  have hfind : s.colleges.find? (fun c => c.id == id) = none := by
    rw [List.find?_eq_none]
    intro c hc
    simpa using h c hc
  simp [Api.update_college, hfind]

/-- Witness for C2: on the one-college store, updating absent id 99 errors
and leaves the store intact. -/
theorem update_college_not_found_witness :
    Api.update_college s0 99 "MIT" "Massachusetts" =
      (.error "College not found", s0) :=
  update_college_not_found s0 99 "MIT" "Massachusetts" (by decide)

/-- C3: createStudent with a college_id matching no College row fails with
the NotFound error ("College not found") and returns the store unchanged,
in particular adding no Student row. -/
theorem create_student_not_found (s : Store) (name : String)
    (age college_id : Int) (h : ∀ c ∈ s.colleges, c.id ≠ college_id) :
    Api.create_student s name age college_id =
      (.error "College not found", s) := by
  have hfind : s.colleges.find? (fun c => c.id == college_id) = none := by
    rw [List.find?_eq_none]
    intro c hc
    simpa using h c hc
  simp [Api.create_student, hfind]

/-- Witness for C3: creating a student against absent college id 7 errors
and leaves the store intact. -/
theorem create_student_not_found_witness :
    Api.create_student s0 "Bob" 19 7 = (.error "College not found", s0) :=
  create_student_not_found s0 "Bob" 19 7 (by decide)

/-- C5: createCollege always succeeds; the returned view carries the given
name and location, it appears in the subsequent colleges() listing, and
its id differs from the id of every College previously in the store. -/
theorem create_college_fresh (s : Store) (name location : String) :
    (Api.create_college s name location).1.name = name ∧
    (Api.create_college s name location).1.location = location ∧
    (Api.create_college s name location).1 ∈
      Api.colleges (Api.create_college s name location).2 ∧
    ∀ c ∈ s.colleges, c.id ≠ (Api.create_college s name location).1.id := by
  refine ⟨rfl, rfl, ?_, ?_⟩
  · simp [Api.create_college, Api.colleges]
  · intro c hc hcid
    have hlt := lt_freshId (s.colleges.map College.id) c.id
      (List.mem_map_of_mem College.id hc)
    have hid : (Api.create_college s name location).1.id =
        freshId (s.colleges.map College.id) := rfl
    rw [hcid, hid] at hlt
    exact lt_irrefl _ hlt

/-- C1: deleteCollege never raises (it is a total Bool-valued function in
this embedding because the source has no raise path): on an id matching no
College row it returns false and leaves the store unchanged; on a present
id it returns true, removes exactly that one row (the students table and
all other college rows are untouched, and the table shrinks by one row),
and a second call with the same id on the resulting store returns false
and changes nothing. -/
theorem delete_college_spec (s : Store) (id : Int) (hwf : s.WF) :
    ((∀ c ∈ s.colleges, c.id ≠ id) → Api.delete_college s id = (false, s)) ∧
    ((∃ c ∈ s.colleges, c.id = id) →
      (Api.delete_college s id).1 = true ∧
      (Api.delete_college s id).2.colleges =
        s.colleges.filter (fun c => c.id != id) ∧
      (Api.delete_college s id).2.students = s.students ∧
      (Api.delete_college s id).2.colleges.length + 1 = s.colleges.length ∧
      Api.delete_college (Api.delete_college s id).2 id =
        (false, (Api.delete_college s id).2)) := by
  constructor
  · intro h
    have hfind : s.colleges.find? (fun c => c.id == id) = none := by
      rw [List.find?_eq_none]
      intro c hc
      simpa using h c hc
    simp [Api.delete_college, hfind]
  · rintro ⟨c, hc, hcid⟩
    have hsome : (s.colleges.find? (fun x => x.id == id)).isSome :=
      List.find?_isSome.mpr ⟨c, hc, by simpa using hcid⟩
    obtain ⟨c₀, hfind⟩ := Option.isSome_iff_exists.mp hsome
    have hmem : c₀ ∈ s.colleges := List.mem_of_find?_eq_some hfind
    have hc₀id := List.find?_some hfind
    have hdel : Api.delete_college s id =
        (true,
         { s with colleges := s.colleges.eraseP (fun x => x.id == id) }) := by
      simp [Api.delete_college, hfind]
    have herase : s.colleges.eraseP (fun x => x.id == id) =
        s.colleges.filter (fun x => x.id != id) :=
      eraseP_eq_filter_of_nodup College.id id s.colleges hwf.1
    have hlen : (s.colleges.eraseP (fun x => x.id == id)).length + 1 =
        s.colleges.length := by
      rw [List.length_eraseP_of_mem hmem hc₀id]
      exact Nat.succ_pred_eq_of_pos (List.length_pos_of_mem hmem)
    have hnone : (s.colleges.filter
        (fun x => x.id != id)).find? (fun x => x.id == id) = none :=
      find?_filter_ne_eq_none College.id id s.colleges
    refine ⟨by rw [hdel], by rw [hdel]; exact herase, by rw [hdel],
      by rw [hdel]; exact hlen, ?_⟩
    rw [hdel]
    simp [Api.delete_college, herase, hnone]

/-- Witness for C1: deleting college 1 from the one-college store returns
true, and repeating the deletion on the resulting store returns false
without further change. -/
theorem delete_college_spec_witness :
    (Api.delete_college s1 1).1 = true ∧
    Api.delete_college (Api.delete_college s1 1).2 1 =
      (false, (Api.delete_college s1 1).2) :=
  ⟨((delete_college_spec s1 1 (by decide)).2 (by decide)).1,
   ((delete_college_spec s1 1 (by decide)).2 (by decide)).2.2.2.2⟩

/-- C9: deleting a College that still has dependent Students succeeds and
removes only the College row: it returns true, the students table is
untouched (every dependent student survives with its college_id still
pointing at the deleted id), and no College row with that id remains —
referential orphaning, with no cascade and no blocking. -/
theorem delete_college_orphans (s : Store) (C : Int) (hwf : s.WF)
    (hcol : ∃ c ∈ s.colleges, c.id = C)
    (_hdep : ∃ st ∈ s.students, st.college_id = C) :
    (Api.delete_college s C).1 = true ∧
    (Api.delete_college s C).2.students = s.students ∧
    (∀ st ∈ s.students, st.college_id = C →
      st ∈ (Api.delete_college s C).2.students ∧ st.college_id = C) ∧
    (¬ ∃ c ∈ (Api.delete_college s C).2.colleges, c.id = C) := by
  obtain ⟨c, hc, hcid⟩ := hcol
  have hsome : (s.colleges.find? (fun x => x.id == C)).isSome :=
    List.find?_isSome.mpr ⟨c, hc, by simpa using hcid⟩
  obtain ⟨c₀, hfind⟩ := Option.isSome_iff_exists.mp hsome
  have hdel : Api.delete_college s C =
      (true,
       { s with colleges := s.colleges.eraseP (fun x => x.id == C) }) := by
    simp [Api.delete_college, hfind]
  have herase : s.colleges.eraseP (fun x => x.id == C) =
      s.colleges.filter (fun x => x.id != C) :=
    eraseP_eq_filter_of_nodup College.id C s.colleges hwf.1
  refine ⟨by rw [hdel], by rw [hdel], ?_, ?_⟩
  · intro st hst hstc
    exact ⟨by rw [hdel]; exact hst, hstc⟩
  · rintro ⟨c', hc', hc'id⟩
    rw [hdel] at hc'
    rw [herase] at hc'
    have := (List.mem_filter.mp hc').2
    rw [hc'id] at this
    simp at this

/-- Witness for C9: deleting college 1 while student 1 is enrolled in it
returns true, keeps the student, and leaves no college with id 1. -/
theorem delete_college_orphans_witness :
    (Api.delete_college s1 1).1 = true ∧
    (Api.delete_college s1 1).2.students = s1.students ∧
    (∀ st ∈ s1.students, st.college_id = 1 →
      st ∈ (Api.delete_college s1 1).2.students ∧ st.college_id = 1) ∧
    (¬ ∃ c ∈ (Api.delete_college s1 1).2.colleges, c.id = 1) :=
  delete_college_orphans s1 1 (by decide) (by decide) (by decide)

/-- C6: createStudent("Alice", 21, C) with C the id of an existing College
succeeds, and the subsequent students() listing contains the created
student's view with name "Alice", age 21 and college_id C. -/
theorem create_student_roundtrip (s : Store) (C : Int)
    (h : ∃ c ∈ s.colleges, c.id = C) :
    ∃ v : StudentType,
      (Api.create_student s "Alice" 21 C).1 = .ok v ∧
      v ∈ Api.students (Api.create_student s "Alice" 21 C).2 ∧
      v.name = "Alice" ∧ v.age = 21 ∧ v.college_id = C := by
  obtain ⟨c, hc, hcid⟩ := h
  have hsome : (s.colleges.find? (fun x => x.id == C)).isSome :=
    List.find?_isSome.mpr ⟨c, hc, by simpa using hcid⟩
  obtain ⟨c₀, hfind⟩ := Option.isSome_iff_exists.mp hsome
  refine ⟨⟨freshId (s.students.map Student.id), "Alice", 21, C⟩,
    ?_, ?_, rfl, rfl, rfl⟩
  · simp [Api.create_student, hfind]
  · simp [Api.create_student, Api.students, hfind]

/-- Witness for C6: creating Alice against existing college 1 in the
one-college store succeeds and she shows up in students(). -/
theorem create_student_roundtrip_witness :
    ∃ v : StudentType,
      (Api.create_student s0 "Alice" 21 1).1 = .ok v ∧
      v ∈ Api.students (Api.create_student s0 "Alice" 21 1).2 ∧
      v.name = "Alice" ∧ v.age = 21 ∧ v.college_id = 1 :=
  create_student_roundtrip s0 1 (by decide)

/-- C7: updateStudent on an existing student overwrites only that
student's name and age: the returned view keeps the student's id and old
college_id, the colleges table is untouched, every other student row is
unchanged (the one matching row changes only name and age), and no
existence check is performed on the referenced College — the outcome is
the same whatever the colleges table holds, which the last conjunct states
by running the mutation with the colleges table replaced arbitrarily. -/
theorem update_student_frame (s : Store) (id : Int) (name : String)
    (age : Int) (hwf : s.WF) (h : ∃ st ∈ s.students, st.id = id) :
    ∃ st₀ ∈ s.students, st₀.id = id ∧
      (Api.update_student s id name age).1 =
        .ok ⟨id, name, age, st₀.college_id⟩ ∧
      (Api.update_student s id name age).2.colleges = s.colleges ∧
      (Api.update_student s id name age).2.students =
        (s.students.map (fun t =>
          if t.id = id then { t with name := name, age := age } else t)) ∧
      (∀ cs : List College,
        Api.update_student { s with colleges := cs } id name age =
          ((Api.update_student s id name age).1,
           { (Api.update_student s id name age).2 with colleges := cs })) := by
  obtain ⟨st, hst, hstid⟩ := h
  have hsome : (s.students.find? (fun x => x.id == id)).isSome :=
    List.find?_isSome.mpr ⟨st, hst, by simpa using hstid⟩
  obtain ⟨st₀, hfind⟩ := Option.isSome_iff_exists.mp hsome
  have hmem : st₀ ∈ s.students := List.mem_of_find?_eq_some hfind
  have hid : st₀.id = id := by simpa using List.find?_some hfind
  refine ⟨st₀, hmem, hid, ?_, ?_, ?_, ?_⟩
  · simp [Api.update_student, hfind, hid]
  · simp [Api.update_student, hfind]
  · simp only [Api.update_student, hfind]
    exact modifyFirst_eq_map_of_nodup Student.id id _ s.students hwf.2
  · intro cs
    simp [Api.update_student, hfind]

/-- Witness for C7: updating student 1 to ("Jorge", 23) in the
one-student store keeps college_id 1 and touches nothing else. -/
theorem update_student_frame_witness :
    ∃ st₀ ∈ s1.students, st₀.id = 1 ∧
      (Api.update_student s1 1 "Jorge" 23).1 =
        .ok ⟨1, "Jorge", 23, st₀.college_id⟩ ∧
      (Api.update_student s1 1 "Jorge" 23).2.colleges = s1.colleges ∧
      (Api.update_student s1 1 "Jorge" 23).2.students =
        (s1.students.map (fun t =>
          if t.id = 1 then { t with name := "Jorge", age := 23 } else t)) ∧
      (∀ cs : List College,
        Api.update_student { s1 with colleges := cs } 1 "Jorge" 23 =
          ((Api.update_student s1 1 "Jorge" 23).1,
           { (Api.update_student s1 1 "Jorge" 23).2 with colleges := cs })) :=
  update_student_frame s1 1 "Jorge" 23 (by decide) (by decide)

/-- C10: updateCollege on an existing id returns the view carrying the
input id, name and location, leaves the students table unchanged, and
rewrites the colleges table pointwise: the row with the given id gets the
new name and location with its id intact, and every other row is exactly
unchanged. -/
theorem update_college_frame (s : Store) (id : Int)
    (name location : String) (hwf : s.WF)
    (h : ∃ c ∈ s.colleges, c.id = id) :
    (Api.update_college s id name location).1 = .ok ⟨id, name, location⟩ ∧
    (Api.update_college s id name location).2.students = s.students ∧
    (Api.update_college s id name location).2.colleges =
      s.colleges.map (fun c =>
        if c.id = id then { c with name := name, location := location }
        else c) := by
  obtain ⟨c, hc, hcid⟩ := h
  have hsome : (s.colleges.find? (fun x => x.id == id)).isSome :=
    List.find?_isSome.mpr ⟨c, hc, by simpa using hcid⟩
  obtain ⟨c₀, hfind⟩ := Option.isSome_iff_exists.mp hsome
  have hid : c₀.id = id := by simpa using List.find?_some hfind
  refine ⟨?_, ?_, ?_⟩
  · simp [Api.update_college, hfind, hid]
  · simp [Api.update_college, hfind]
  · simp only [Api.update_college, hfind]
    exact modifyFirst_eq_map_of_nodup College.id id _ s.colleges hwf.1

/-- Witness for C10: updating college 1 in the one-college store returns
the view with id 1 and otherwise only rewrites that row's name and
location. -/
theorem update_college_frame_witness :
    (Api.update_college s1 1 "Stanford University" "California").1 =
      .ok ⟨1, "Stanford University", "California"⟩ ∧
    (Api.update_college s1 1 "Stanford University" "California").2.students
      = s1.students ∧
    (Api.update_college s1 1 "Stanford University" "California").2.colleges
      = s1.colleges.map (fun c =>
          if c.id = 1 then
            { c with name := "Stanford University", location := "California" }
          else c) :=
  update_college_frame s1 1 "Stanford University" "California"
    (by decide) (by decide)

/-- C4 counterexample: the two module trees do NOT implement the same
behavior. On the one-college store, createStudent("Alice", 21, 1) through
the primary tree (src/api/schema.py) returns a StudentType view, while
through the legacy tree (src/schema.py) it raises: the legacy resolver
constructs StudentType without the required age field. (The legacy tree
moreover lacks updateCollege, deleteCollege, updateStudent and
deleteStudent altogether.) -/
theorem legacy_api_create_student_differ :
    (Legacy.create_student s0 "Alice" 21 1).1 ≠
      (Api.create_student s0 "Alice" 21 1).1 := by
  simp [Legacy.create_student, Api.create_student, s0]

/-- C4 amended: the trees agree only in part. For every store the two
colleges resolvers return identical view lists and the two students
bodies map rows identically; and for all inputs the two create mutations
leave the store in identical states (legacy createStudent commits the row
before failing). But the result of createStudent differs (legacy raises a
TypeError where the primary tree succeeds), legacy createCollege returns
a raw model object instead of a view, and the legacy tree has no
update/delete resolvers at all. -/
theorem legacy_api_partial_agreement (s : Store) (nm loc n : String)
    (a cid : Int) :
    Legacy.colleges s = Api.colleges s ∧
    Legacy.students s = Api.students s ∧
    (Legacy.create_college s nm loc).2 = (Api.create_college s nm loc).2 ∧
    (Legacy.create_student s n a cid).2 =
      (Api.create_student s n a cid).2 := by
  refine ⟨rfl, rfl, rfl, ?_⟩
  cases hfind : s.colleges.find? (fun c => c.id == cid) with
  | none => simp [Legacy.create_student, Api.create_student, hfind]
  | some c => simp [Legacy.create_student, Api.create_student, hfind]

end FastApiGraphQL
